import Mathlib

/-!
Shallow embedding of the `topLevelEntropy` subsystem of workerd's Python
runtime glue (src/pyodide/internal/topLevelEntropy/): the entropy gate
(`allow_entropy.py`), the gate-wrapping patches and lifecycle transition
(`entropy_patches.py`), and the import patch manager
(`import_patch_manager.py`).

Machine integers: `ALLOWED_ENTROPY_CALLS` is a Python `array("b", [0])`
(one signed byte).  We embed its cell as an `Int`; theorems that quantify
over the stored value restrict it to the representable range where that
matters.  Python exceptions are embedded as an explicit error type
(`PyErr`); a Python function that can raise becomes a Lean function
returning `Except PyErr _` (pure) or `State × Option PyErr` (stateful,
where the state at the moment of the raise matters, because module-level
globals survive an unwinding exception).
-/

namespace TopLevelEntropy

/-- Python exceptions that appear in this subsystem. -/
inductive PyErr where
  | osError (errno : Int) (msg : String)
  | runtimeError (msg : String)
  | typeError (msg : String)
  | attributeError (name : String)
  | unboundLocalError (name : String)
  | overflowError (msg : String)
deriving Repr, DecidableEq

/-- The two module-level globals of `allow_entropy.py` (its
`IN_REQUEST_CONTEXT` boolean and the single signed-byte cell
`ALLOWED_ENTROPY_CALLS[0]`).  `entropy_patches.py` has its own
`IN_REQUEST_CONTEXT` global with identical use in its gate, so the same
state type serves both gates. -/
structure EntropyState where
  IN_REQUEST_CONTEXT : Bool
  ALLOWED_ENTROPY_CALLS : Int
deriving Repr, DecidableEq

/-- `allow_entropy.is_bad_entropy_enabled`:
`return ALLOWED_ENTROPY_CALLS[0] > 0`. -/
def is_bad_entropy_enabled (s : EntropyState) : Bool :=
  decide (s.ALLOWED_ENTROPY_CALLS > 0)

/-- `allow_entropy.should_allow_entropy_call` (and the textually identical
`entropy_patches.should_allow_entropy_call`):
`return IN_REQUEST_CONTEXT or is_bad_entropy_enabled()`. -/
def should_allow_entropy_call (s : EntropyState) : Bool :=
  s.IN_REQUEST_CONTEXT || is_bad_entropy_enabled s

/-- `errno` of the OS-level "no entropy source" condition
(`EIO = 29` in both `allow_entropy.py` and `entropy_patches.py`). -/
def EIO : Int := 29

/-- The message of the gate's `OSError`. -/
def entropy_error_msg : String := "Cannot get entropy outside of request context"

/-- `allow_entropy.raise_unless_entropy_allowed`:
`if not should_allow_entropy_call(): raise OSError(EIO, "...")`. -/
def raise_unless_entropy_allowed (s : EntropyState) : Except PyErr Unit :=
  if !(should_allow_entropy_call s) then
    .error (PyErr.osError EIO entropy_error_msg)
  else
    .ok ()

/-- `entropy_patches.patch_urandom`: the wrapper installed over
`os.urandom`; `orig_urandom` stands for the original `os.urandom`
(modelled as an arbitrary pure byte producer).
`if not should_allow_entropy_call(): raise OSError(EIO, "..."); return orig_urandom(*args)`. -/
def patch_urandom (orig_urandom : Nat → List Nat) (s : EntropyState) (n : Nat) :
    Except PyErr (List Nat) :=
  if !(should_allow_entropy_call s) then
    .error (PyErr.osError EIO entropy_error_msg)
  else
    .ok (orig_urandom n)

/-- Modelled from the spec: a single entropy-consuming call through the
gate.  The decrement of `ALLOWED_ENTROPY_CALLS[0]` is performed by the
patched `getentropy` on the JS/WASM side of the repository (the code that
reads the cell's address printed by `get_bad_entropy_flag`), which is not
part of the Python sources; per spec §4.1 (`tryConsumeEntropy`), a
sandboxed call is permitted iff the budget is positive, in which case it
proceeds and the budget is decremented; when unsandboxed the budget is
untouched.  The permission check itself is the source's
`raise_unless_entropy_allowed`. -/
def tryConsumeEntropy (s : EntropyState) : Except PyErr EntropyState :=
  match raise_unless_entropy_allowed s with
  | .error e => .error e
  | .ok () =>
    if s.IN_REQUEST_CONTEXT then
      .ok s
    else
      .ok { s with ALLOWED_ENTROPY_CALLS := s.ALLOWED_ENTROPY_CALLS - 1 }

/-- `k` successive entropy-consuming calls through the gate; stops at the
first denied call, leaving the state as it was at that call. -/
def consumeN : Nat → EntropyState → EntropyState × Option PyErr
  | 0, s => (s, none)
  | k + 1, s =>
    match tryConsumeEntropy s with
    | .ok s' => consumeN k s'
    | .error e => (s, some e)

/-- Trailing text of the leftover-allowance diagnostic
(`f"{ALLOWED_ENTROPY_CALLS[0]} unexpected leftover getentropy calls "`). -/
def leftover_suffix : String := " unexpected leftover getentropy calls "

/-- The range check of item assignment into the `array("b", ...)` cell
(CPython `arraymodule.c` `b_setitem`, whose value is first parsed as a C
`short`): assigning a value outside the signed-byte range raises
`OverflowError` and leaves the cell unchanged; `none` means the
assignment succeeds. -/
def array_b_setitem (n : Int) : Option PyErr :=
  if n < -32768 then some (PyErr.overflowError "signed short integer is less than minimum")
  else if 32767 < n then some (PyErr.overflowError "signed short integer is greater than maximum")
  else if n < -128 then some (PyErr.overflowError "signed char is less than minimum")
  else if 127 < n then some (PyErr.overflowError "signed char is greater than maximum")
  else none

/-- `allow_entropy.allow_bad_entropy_calls(n)`: the `@contextmanager`
generator, whose `with` block is `body`.  `ALLOWED_ENTROPY_CALLS[0] = n`
is an `array("b")` item assignment: for `n` outside the signed-byte
range it raises `OverflowError` at `with`-entry, the block never runs
and the cell keeps its prior value.  The generator has no
`try`/`finally`: an exception raised by the body is thrown into the
generator at its `yield` and propagates, skipping the trailing
statements; the leftover-allowance `RuntimeError` is raised before the
restoring assignment.  `body` maps the state after the successful
`ALLOWED_ENTROPY_CALLS[0] = n` to its final state plus the exception it
raised, if any.  (The restoring assignment writes back a value
previously read from the cell, hence always representable, so it needs
no range check.) -/
def allow_bad_entropy_calls (n : Int)
    (body : EntropyState → EntropyState × Option PyErr) (s : EntropyState) :
    EntropyState × Option PyErr :=
  let old_allowed_entropy_calls := s.ALLOWED_ENTROPY_CALLS
  match array_b_setitem n with
  | some e => (s, some e)
  | none =>
    match body { s with ALLOWED_ENTROPY_CALLS := n } with
    | (s2, some e) => (s2, some e)
    | (s2, none) =>
      if s2.ALLOWED_ENTROPY_CALLS > 0 then
        (s2, some (PyErr.runtimeError (toString s2.ALLOWED_ENTROPY_CALLS ++ leftover_suffix)))
      else
        ({ s2 with ALLOWED_ENTROPY_CALLS := old_allowed_entropy_calls }, none)

/-- A Python attribute value, as far as this subsystem observes it:
either a non-callable object or a callable (embedded as its call
behavior on a list of arguments). -/
inductive PyVal where
  | obj (v : Int)
  | func (f : List Int → Except PyErr Int)

/-- `callable(...)` on an attribute value. -/
def funcallable : PyVal → Bool
  | .obj _ => false
  | .func _ => true

/-- A Python module object: its `__name__` and its attribute dictionary
(an association list keyed by attribute name). -/
structure ModuleType where
  name : String
  attrs : List (String × PyVal)

/-- First-match lookup in an association list (Python attribute/dict
read; the lists modelling dicts keep keys unique, so first match is the
match). -/
def lookup' {α : Type} : List (String × α) → String → Option α
  | [], _ => none
  | (k', v) :: rest, k => if k' = k then some v else lookup' rest k

/-- Python dict item assignment `d[k] = v`: replaces the value of an
existing key in place, else appends. -/
def setItem {α : Type} : List (String × α) → String → α → List (String × α)
  | [], k, v => [(k, v)]
  | (k', v') :: rest, k, v =>
    if k' = k then (k, v) :: rest else (k', v') :: setItem rest k v

/-- `getattr(module, key)` followed by a call with `args` — the behavior
of invoking `module.key(args)` on the real (unproxied) module. -/
def module_call (m : ModuleType) (key : String) (args : List Int) : Except PyErr Int :=
  match lookup' m.attrs key with
  | none => .error (PyErr.attributeError key)
  | some (.obj _) => .error (PyErr.typeError "object is not callable")
  | some (.func f) => f args

/-- `import_patch_manager.BlockedCallModule`: the two slots set by
`__init__` via `super().__setattr__`. -/
structure BlockedCallModule where
  _mod : ModuleType
  _allow_list : List String

/-- The result of an attribute read on a `BlockedCallModule`: either the
original attribute passed through, or the guarding `wrapper` closure
(which remembers the proxied module's `__name__`, the key, and the
original callable it wraps). -/
inductive AttrResult where
  | passthrough (v : PyVal)
  | wrapper (modName key : String) (f : List Int → Except PyErr Int)

/-- `BlockedCallModule.__getattribute__`, over the module-level global
`IN_REQUEST_CONTEXT` of `import_patch_manager.py`:
reads `orig = getattr(mod, key)` (AttributeError when absent), passes it
through when `IN_REQUEST_CONTEXT`, when not callable, or when the key is
in the allow list, and otherwise returns the raising wrapper. -/
def BlockedCallModule.getattribute (IN_REQUEST_CONTEXT : Bool)
    (self : BlockedCallModule) (key : String) : Except PyErr AttrResult :=
  match lookup' self._mod.attrs key with
  | none => .error (PyErr.attributeError key)
  | some orig =>
    if IN_REQUEST_CONTEXT then .ok (.passthrough orig)
    else if !(funcallable orig) then .ok (.passthrough orig)
    else if key ∈ self._allow_list then .ok (.passthrough orig)
    else
      match orig with
      | .func f => .ok (.wrapper self._mod.name key f)
      | .obj v => .ok (.passthrough (.obj v))

/-- Invoking the result of an attribute read with `args`, under the
current value of `import_patch_manager.IN_REQUEST_CONTEXT` (the wrapper
re-reads the global at call time). -/
def callAttr (IN_REQUEST_CONTEXT : Bool) (r : AttrResult) (args : List Int) :
    Except PyErr Int :=
  match r with
  | .passthrough (.func f) => f args
  | .passthrough (.obj _) => .error (PyErr.typeError "object is not callable")
  | .wrapper modName key f =>
    if !IN_REQUEST_CONTEXT then
      .error (PyErr.runtimeError
        ("Cannot use " ++ modName ++ "." ++ key ++ "() outside of request context"))
    else f args

/-- An entry of `sys.modules`: either a real module object or an
installed `BlockedCallModule` façade. -/
inductive ModuleEntry where
  | real (m : ModuleType)
  | blocked (b : BlockedCallModule)

/-- The module-level globals of `import_patch_manager.py` that
`block_calls` / `unblock_calls` touch: its own `IN_REQUEST_CONTEXT`, the
interpreter's `sys.modules` cache, and `ORIG_MODULES`. -/
structure IPMState where
  IN_REQUEST_CONTEXT : Bool
  sys_modules : List (String × ModuleEntry)
  ORIG_MODULES : List (String × ModuleType)

/-- `import_patch_manager.block_calls(module, allowlist=...)`:
`sys.modules[module.__name__] = BlockedCallModule(module, allowlist)`;
`ORIG_MODULES[module.__name__] = module`. -/
def block_calls (st : IPMState) (module : ModuleType) (allowlist : List String) :
    IPMState :=
  { st with
    sys_modules := setItem st.sys_modules module.name (.blocked ⟨module, allowlist⟩)
    ORIG_MODULES := setItem st.ORIG_MODULES module.name module }

/-- `import_patch_manager.unblock_calls()`:
`IN_REQUEST_CONTEXT = True; for name, val in ORIG_MODULES.items(): sys.modules[name] = val`.
(The loop iterates the dict in insertion order; `ORIG_MODULES` itself is
not written.) -/
def unblock_calls (st : IPMState) : IPMState :=
  { st with
    IN_REQUEST_CONTEXT := true
    sys_modules :=
      st.ORIG_MODULES.foldl
        (fun sm p => setItem sm p.1 (ModuleEntry.real p.2)) st.sys_modules }

/-- A registered `before_first_request` handler: a callback taking the
loaded module object (its observable outcome embedded as the exception
it raises, if any). -/
def Handler : Type := ModuleType → Option PyErr

/-- `functools.partial(handler, module)` as appended to
`before_first_request_handlers`: the handler bound to the concrete
loaded module object. -/
structure BoundHandler where
  func : Handler
  arg : ModuleType

/-- `import_patch_manager.PatchInfo`: the per-module policy triple.  The
`create`/`exec` context-manager factories default to `nullcontext`
(modelled as `none`, a registered policy being an opaque identifier,
since no claim depends on the wrapped context's own behavior) and
`before_first_request` defaults to `None`. -/
structure PatchInfo where
  create : Option Nat := none
  exec : Option Nat := none
  before_first_request : Option Handler := none

/-- The module-level registry state of `import_patch_manager.py`: the
`patches` dict and the `before_first_request_handlers` list. -/
structure RegistryState where
  patches : List (String × PatchInfo)
  before_first_request_handlers : List BoundHandler

/-- `d = patches.setdefault(name, PatchInfo()); <mutate d>` — updates the
entry for `name` in place, inserting a default `PatchInfo()` first when
the key is absent. -/
def updatePatch : List (String × PatchInfo) → String → (PatchInfo → PatchInfo) →
    List (String × PatchInfo)
  | [], k, f => [(k, f {})]
  | (k', v) :: rest, k, f =>
    if k' = k then (k, f v) :: rest else (k', v) :: updatePatch rest k f

/-- `import_patch_manager.register_exec_patch(name, context_manager)`
(the non-decorator form, `context_manager` given):
`d = patches.setdefault(name, PatchInfo()); d.exec = context_manager`. -/
def register_exec_patch (st : RegistryState) (name : String)
    (context_manager : Nat) : RegistryState :=
  { st with
    patches := updatePatch st.patches name (fun d => { d with exec := some context_manager }) }

/-- `import_patch_manager.register_before_first_request(name, handler)`
(the non-decorator form, `handler` given):
`d = patches.setdefault(name, PatchInfo()); d.before_first_request = handler`. -/
def register_before_first_request (st : RegistryState) (name : String)
    (handler : Handler) : RegistryState :=
  { st with
    patches := updatePatch st.patches name
      (fun d => { d with before_first_request := some handler }) }

/-- The handler-list effect of `PatchLoader.exec_module(module)`:
`if self.patch_info.before_first_request: before_first_request_handlers.append(partial(..., module))`
(the append precedes running the module's top-level code inside the
`exec` context; neither the context manager nor `orig_loader.exec_module`
touches the handler list). -/
def PatchLoader.exec_module (patch_info : PatchInfo) (module : ModuleType)
    (handlers : List BoundHandler) : List BoundHandler :=
  match patch_info.before_first_request with
  | some h => handlers ++ [⟨h, module⟩]
  | none => handlers

/-- Modelled from the spec: the phase-transition drain of
`before_first_request_handlers`.  No code under the Python sources
consumes the list (only its declaration and the `exec_module` appender
are there; the orchestration that invokes the handlers at the first
request lives on the JS side of the repository).  Per spec §4.6/§5 the
drain invokes each pending callback in registration order, isolates each
callback's failure so that later callbacks still run, and reports the
collected failures after the drain completes.  The result is the trace
of invoked bound handlers, in invocation order, together with the
aggregated errors. -/
def drainTrace : List BoundHandler → List BoundHandler × List PyErr
  | [] => ([], [])
  | b :: rest =>
    let r := b.func b.arg
    let rest' := drainTrace rest
    match r with
    | some e => (b :: rest'.1, e :: rest'.2)
    | none => (b :: rest'.1, rest'.2)

/-- A loader: either an ordinary loader (opaque identity) or a
`PatchLoader(orig_loader, patch_info)` wrapper installed by
`PatchFinder.find_spec`. -/
inductive LoaderR where
  | plain (id : Nat)
  | patchLoader (orig_loader : LoaderR) (patch_info : PatchInfo)

/-- `importlib.machinery.ModuleSpec`, as far as this subsystem observes
it: the module name and the `loader` slot. -/
structure ModuleSpecR where
  name : String
  loader : LoaderR

/-- An entry of `sys.meta_path`: a `PatchFinder` instance, or any other
finder (opaque identity plus its `find_spec` behavior). -/
inductive Finder where
  | patchFinder
  | plain (id : Nat) (find : String → Option ModuleSpecR)

/-- `isinstance(finder, PatchFinder)`. -/
def isPatchFinder : Finder → Bool
  | .patchFinder => true
  | .plain _ _ => false

/-- Observable identity of a meta-path entry (used to compare meta-path
contents without comparing finder behaviors). -/
def finderTag : Finder → Option Nat
  | .patchFinder => none
  | .plain id _ => some id

/-- The `for finder in sys.meta_path` walk inside
`PatchFinder.find_spec`: skips every `PatchFinder` instance, returns the
first truthy spec another finder produces, and falls through to `None`
(the loop's `else` branch) when none does. -/
def findFirstSpec : List Finder → String → Option ModuleSpecR
  | [], _ => none
  | .patchFinder :: rest, fullname => findFirstSpec rest fullname
  | .plain _ find :: rest, fullname =>
    match find fullname with
    | some spec => some spec
    | none => findFirstSpec rest fullname

/-- `import_patch_manager.PatchFinder.find_spec(fullname, path, target)`:
`import_context = patches.get(fullname, None)`; `None` means "not ours";
otherwise walk the rest of the chain for the original spec and overwrite
its loader with the wrapping `PatchLoader`. -/
def PatchFinder.find_spec (patches : List (String × PatchInfo))
    (meta_path : List Finder) (fullname : String) : Option ModuleSpecR :=
  match lookup' patches fullname with
  | none => none
  | some import_context =>
    match findFirstSpec meta_path fullname with
    | none => none
    | some spec => some { spec with loader := .patchLoader spec.loader import_context }

/-- `import_patch_manager.PatchFinder.remove()`:
`for idx, val in enumerate(sys.meta_path): if isinstance(val, PatchFinder): break`
then `del sys.meta_path[idx]`.  When no `PatchFinder` is present the
loop runs to completion leaving `idx` at the last index, so the last
entry is deleted; on an empty list `idx` was never bound and the `del`
raises `UnboundLocalError`. -/
def PatchFinder.remove (meta_path : List Finder) : Except PyErr (List Finder) :=
  match meta_path.findIdx? (fun f => isPatchFinder f) with
  | some idx => .ok (meta_path.eraseIdx idx)
  | none =>
    match meta_path with
    | [] => .error (PyErr.unboundLocalError "idx")
    | _ :: _ => .ok (meta_path.eraseIdx (meta_path.length - 1))

/-- The process state that `entropy_patches.py` reads and writes: its own
`IN_REQUEST_CONTEXT` global, whether `os.urandom` / `_random.Random.seed`
currently hold the patched wrappers, the interpreter's `sys.meta_path`,
the `import_patch_manager` globals, the module-level
`before_first_request_handlers` list, and counters recording how many
times `random.seed()` / `numpy.random.seed()` have been invoked by
`reseed_rng` (their only observable effect here). -/
structure EPState where
  IN_REQUEST_CONTEXT : Bool
  os_urandom_patched : Bool
  random_seed_patched : Bool
  sys_meta_path : List Finder
  ipm : IPMState
  handlers : List BoundHandler
  random_seeded : Nat
  numpy_seeded : Nat

/-- `entropy_patches.restore_urandom()`: `os.urandom = orig_urandom`. -/
def restore_urandom (s : EPState) : EPState :=
  { s with os_urandom_patched := false }

/-- `entropy_patches.restore_random_seed()`:
`_random.Random.seed = orig_Random_seed`. -/
def restore_random_seed (s : EPState) : EPState :=
  { s with random_seed_patched := false }

/-- `entropy_patches.reseed_rng()`: `from random import seed; seed()`,
then the same for `numpy.random` if `"numpy.random" in sys.modules`
(the first reseed does not touch `sys.modules`, so the check reads the
incoming cache). -/
def reseed_rng (s : EPState) : EPState :=
  if (lookup' s.ipm.sys_modules "numpy.random").isSome then
    { s with random_seeded := s.random_seeded + 1, numpy_seeded := s.numpy_seeded + 1 }
  else
    { s with random_seeded := s.random_seeded + 1 }

/-- `import_patch_manager.remove_import_patch_manager()`:
`PatchFinder.remove(); unblock_calls()` — when `remove` raises, the
unblock never runs and the state so far persists. -/
def remove_import_patch_manager (s : EPState) : EPState × Option PyErr :=
  match PatchFinder.remove s.sys_meta_path with
  | .error e => (s, some e)
  | .ok mp => ({ s with sys_meta_path := mp, ipm := unblock_calls s.ipm }, none)

/-- The `TypeError` message for the final statement of
`before_first_request`: `entropy_patches.py` calls
`tempfile_restore_random_name_sequence()` with no arguments, while the
definition in `entropy_import_context.py` has a required `tempfile`
parameter, so the call raises before performing any effect. -/
def tempfile_restore_arity_msg : String :=
  "tempfile_restore_random_name_sequence() missing 1 required positional argument: 'tempfile'"

/-- `entropy_patches.before_first_request()`:
`IN_REQUEST_CONTEXT = True; restore_urandom(); restore_random_seed();
remove_import_patch_manager(); reseed_rng();
tempfile_restore_random_name_sequence()` — each statement's effect in
order, the state at the moment of a raise being the result (globals
survive the unwind).  The handler list is never read or written. -/
def before_first_request (s : EPState) : EPState × Option PyErr :=
  let s1 := { s with IN_REQUEST_CONTEXT := true }
  let s2 := restore_urandom s1
  let s3 := restore_random_seed s2
  match remove_import_patch_manager s3 with
  | (s4, some e) => (s4, some e)
  | (s4, none) =>
    let s5 := reseed_rng s4
    (s5, some (PyErr.typeError tempfile_restore_arity_msg))

lemma tryConsume_pos (b : Int) (hb : 0 < b) :
    tryConsumeEntropy ⟨false, b⟩ = .ok ⟨false, b - 1⟩ := by
  simp [tryConsumeEntropy, raise_unless_entropy_allowed, should_allow_entropy_call,
    is_bad_entropy_enabled, hb]

lemma tryConsume_nonpos (b : Int) (hb : b ≤ 0) :
    tryConsumeEntropy ⟨false, b⟩ = .error (PyErr.osError 29 entropy_error_msg) := by
  simp [tryConsumeEntropy, raise_unless_entropy_allowed, should_allow_entropy_call,
    is_bad_entropy_enabled, EIO, not_lt.mpr hb]

lemma consumeN_le : ∀ (k : Nat) (b : Int), (k : Int) ≤ b →
    consumeN k ⟨false, b⟩ = (⟨false, b - (k : Int)⟩, none)
  | 0, b, _ => by simp [consumeN]
  | k + 1, b, h => by
    have hb : 0 < b := by
      have : ((k : Int) + 1) ≤ b := by push_cast at h; omega
      omega
    have h2 := consumeN_le k (b - 1) (by push_cast at h ⊢; omega)
    have hval : b - 1 - (k : Int) = b - ((k + 1 : Nat) : Int) := by push_cast; ring
    rw [hval] at h2
    simp [consumeN, tryConsume_pos b hb, h2]

lemma consumeN_overshoot (k : Nat) :
    consumeN (k + 1) ⟨false, (k : Int)⟩
      = (⟨false, 0⟩, some (PyErr.osError 29 entropy_error_msg)) := by
  induction k with
  | zero => simp [consumeN, tryConsume_nonpos 0 le_rfl]
  | succ k ih =>
    have hb : (0 : Int) < ((k + 1 : Nat) : Int) := by push_cast; omega
    have hval : ((k + 1 : Nat) : Int) - 1 = (k : Int) := by push_cast; ring
    rw [consumeN, tryConsume_pos _ hb, hval]
    exact ih

/-- Claim C1: the entropy gate (`raise_unless_entropy_allowed`, and the
patched `os.urandom` wrapper `patch_urandom`) raises a catchable
`OSError` with errno `EIO = 29` iff `IN_REQUEST_CONTEXT` is false and
`ALLOWED_ENTROPY_CALLS[0] ≤ 0`, and in every other state the call
returns successfully (`patch_urandom` returning the original
`os.urandom`'s bytes). -/
theorem entropy_gate_eio_iff (s : EntropyState) (orig_urandom : Nat → List Nat) (n : Nat) :
    (raise_unless_entropy_allowed s = .error (PyErr.osError 29 entropy_error_msg)
      ↔ s.IN_REQUEST_CONTEXT = false ∧ s.ALLOWED_ENTROPY_CALLS ≤ 0) ∧
    (raise_unless_entropy_allowed s = .ok ()
      ↔ s.IN_REQUEST_CONTEXT = true ∨ 0 < s.ALLOWED_ENTROPY_CALLS) ∧
    (patch_urandom orig_urandom s n = .error (PyErr.osError 29 entropy_error_msg)
      ↔ s.IN_REQUEST_CONTEXT = false ∧ s.ALLOWED_ENTROPY_CALLS ≤ 0) ∧
    (patch_urandom orig_urandom s n = .ok (orig_urandom n)
      ↔ s.IN_REQUEST_CONTEXT = true ∨ 0 < s.ALLOWED_ENTROPY_CALLS) := by
  obtain ⟨irc, b⟩ := s
  by_cases hb : 0 < b <;> cases irc <;>
    simp [raise_unless_entropy_allowed, patch_urandom, should_allow_entropy_call,
      is_bad_entropy_enabled, EIO, hb] <;>
    omega

/-- Claim C2: while sandboxed with budget `b > 0` a permitted call
through the gate decrements the budget by one, so that from budget `k`
the first `k` calls succeed, the budget reaches 0, and the `(k+1)`-th
call fails with the `EntropyDenied` error (`OSError` with errno 29). -/
theorem entropy_budget_counts_down (k : Nat) (b : Int) :
    (tryConsumeEntropy ⟨false, b⟩ = .ok ⟨false, b - 1⟩ ↔ 0 < b) ∧
    consumeN k ⟨false, (k : Int)⟩ = (⟨false, 0⟩, none) ∧
    consumeN (k + 1) ⟨false, (k : Int)⟩
      = (⟨false, 0⟩, some (PyErr.osError 29 entropy_error_msg)) := by
  refine ⟨?_, ?_, consumeN_overshoot k⟩
  · constructor
    · intro h
      by_contra hb
      rw [tryConsume_nonpos b (by omega)] at h
      exact absurd h (by simp)
    · intro hb
      exact tryConsume_pos b hb
  · have := consumeN_le k (k : Int) le_rfl
    simpa using this

/-- Claim C3 counterexample: with prior budget 0, a guard
`allow_bad_entropy_calls 1` whose block raises leaves the budget at 1
instead of restoring it to 0 — the generator has no `try`/`finally`, so
an exception unwinding out of the block skips the restoring
assignment. -/
theorem allow_bad_entropy_calls_unwind_counterexample :
    ((allow_bad_entropy_calls 1 (fun s => (s, some (PyErr.runtimeError "boom")))
        ⟨false, 0⟩).1).ALLOWED_ENTROPY_CALLS ≠ 0 := by decide

lemma array_b_setitem_in (n : Int) (h1 : -128 ≤ n) (h2 : n ≤ 127) :
    array_b_setitem n = none := by
  unfold array_b_setitem
  rw [if_neg (by omega), if_neg (by omega), if_neg (by omega), if_neg (by omega)]

lemma array_b_setitem_out (n : Int) (h : n < -128 ∨ 127 < n) :
    ∃ msg, array_b_setitem n = some (PyErr.overflowError msg) := by
  unfold array_b_setitem
  by_cases h1 : n < -32768
  · exact ⟨_, by rw [if_pos h1]⟩
  · by_cases h2 : 32767 < n
    · exact ⟨_, by rw [if_neg h1, if_pos h2]⟩
    · by_cases h3 : n < -128
      · exact ⟨_, by rw [if_neg h1, if_neg h2, if_pos h3]⟩
      · have h4 : 127 < n := by omega
        exact ⟨_, by rw [if_neg h1, if_neg h2, if_neg h3, if_pos h4]⟩

/-- Claim C3 (amended): for `n` in the representable range of the
`array("b")` cell (`-128 ≤ n ≤ 127`), `allow_bad_entropy_calls n`
restores the budget to its previous value only on normal completion of
the block with the allowance fully consumed (final budget ≤ 0); when
the block raises, the exception propagates with the budget left as the
block left it, and when the leftover-allowance `RuntimeError` is raised
the budget keeps its leftover value; for `n` outside the representable
range the `with`-entry assignment raises `OverflowError`, the block
never runs and the state is unchanged; nested in-range guards whose
blocks complete normally with fully-consumed allowances restore in
LIFO order (final clause: a concrete two-level nesting returning to
the original budget). -/
theorem allow_bad_entropy_calls_exit_paths (n : Int)
    (body : EntropyState → EntropyState × Option PyErr) (s s2 : EntropyState) :
    (∀ e : PyErr, -128 ≤ n → n ≤ 127 →
      body { s with ALLOWED_ENTROPY_CALLS := n } = (s2, some e) →
      allow_bad_entropy_calls n body s = (s2, some e)) ∧
    (-128 ≤ n → n ≤ 127 →
      body { s with ALLOWED_ENTROPY_CALLS := n } = (s2, none) →
      0 < s2.ALLOWED_ENTROPY_CALLS →
      allow_bad_entropy_calls n body s
        = (s2, some (PyErr.runtimeError
            (toString s2.ALLOWED_ENTROPY_CALLS ++ leftover_suffix)))) ∧
    (-128 ≤ n → n ≤ 127 →
      body { s with ALLOWED_ENTROPY_CALLS := n } = (s2, none) →
      s2.ALLOWED_ENTROPY_CALLS ≤ 0 →
      allow_bad_entropy_calls n body s
        = ({ s2 with ALLOWED_ENTROPY_CALLS := s.ALLOWED_ENTROPY_CALLS }, none)) ∧
    (n < -128 ∨ 127 < n →
      (allow_bad_entropy_calls n body s).1 = s ∧
      ∃ msg, (allow_bad_entropy_calls n body s).2 = some (PyErr.overflowError msg)) ∧
    allow_bad_entropy_calls 1
      (fun t =>
        match allow_bad_entropy_calls 1 (consumeN 1) t with
        | (t1, some e) => (t1, some e)
        | (t1, none) => consumeN 1 t1) ⟨false, 0⟩ = (⟨false, 0⟩, none) := by
  refine ⟨?_, ?_, ?_, ?_, by rfl⟩
  · intro e h1 h2 h
    simp [allow_bad_entropy_calls, array_b_setitem_in n h1 h2, h]
  · intro h1 h2 h hpos
    simp [allow_bad_entropy_calls, array_b_setitem_in n h1 h2, h, hpos]
  · intro h1 h2 h hle
    simp [allow_bad_entropy_calls, array_b_setitem_in n h1 h2, h, not_lt.mpr hle]
  · intro hout
    obtain ⟨msg, hmsg⟩ := array_b_setitem_out n hout
    refine ⟨?_, msg, ?_⟩ <;> simp [allow_bad_entropy_calls, hmsg]

/-- Witness for the amended C3: a concrete in-range guard whose block
consumes the whole allowance restores the prior budget. -/
theorem allow_bad_entropy_calls_exit_paths_witness :
    allow_bad_entropy_calls 1 (consumeN 1) ⟨false, 3⟩ = (⟨false, 3⟩, none) := by
  have h := (allow_bad_entropy_calls_exit_paths 1 (consumeN 1) ⟨false, 3⟩ ⟨false, 0⟩).2.2.1
  simpa using h (by norm_num) (by norm_num) (by rfl) (by norm_num)

/-- Claim C6 counterexample: at `n = 128` the claim fails — the
`with`-entry assignment `ALLOWED_ENTROPY_CALLS[0] = 128` overflows the
signed-byte cell, so the guard raises `OverflowError` before the block
can run: the guard neither completes without error nor raises the
leftover-allowance `RuntimeError` the claim promises for a block that
performed fewer than `n` consumptions. -/
theorem allowance_overflow_counterexample :
    (allow_bad_entropy_calls 128 (consumeN 128) ⟨false, 0⟩).2
        = some (PyErr.overflowError "signed char is greater than maximum") ∧
    (allow_bad_entropy_calls 128 (consumeN 128) ⟨false, 0⟩).2 ≠ none ∧
    (allow_bad_entropy_calls 128 (consumeN 128) ⟨false, 0⟩).2
        ≠ some (PyErr.runtimeError (toString (128 : Int) ++ leftover_suffix)) := by
  refine ⟨by rfl, by decide, by decide⟩

/-- Claim C6 (amended): for `0 < n ≤ 127` (the representable range of
the `array("b")` cell; beyond it the guard fails at entry with
`OverflowError` instead, as the counterexample shows at `n = 128`), a
guard `allow_bad_entropy_calls n` whose block performs exactly `n`
entropy consumptions completes without the leftover-allowance error
(and restores the prior budget), while one whose block performs `k < n`
consumptions raises the leftover-allowance `RuntimeError` at guard
release. -/
theorem allowance_exact_vs_leftover (n k : Nat) (s : EntropyState)
    (hn : 0 < n) (hn127 : n ≤ 127) (hk : k < n) (hirc : s.IN_REQUEST_CONTEXT = false) :
    allow_bad_entropy_calls (n : Int) (consumeN n) s = (s, none) ∧
    (allow_bad_entropy_calls (n : Int) (consumeN k) s).2
      = some (PyErr.runtimeError
          (toString ((n : Int) - (k : Int)) ++ leftover_suffix)) := by
  have hset : array_b_setitem (n : Int) = none :=
    array_b_setitem_in _ (by omega) (by omega)
  obtain ⟨irc, b⟩ := s
  subst hirc
  constructor
  · have hbody := consumeN_le n (n : Int) le_rfl
    simp only [sub_self] at hbody
    simp [allow_bad_entropy_calls, hset, hbody]
  · have hbody := consumeN_le k (n : Int) (by push_cast; omega)
    have hpos : (0 : Int) < (n : Int) - (k : Int) := by push_cast; omega
    simp [allow_bad_entropy_calls, hset, hbody, hpos]

/-- Witness for the amended C6 at `n = 2`, `k = 1`, prior budget 5. -/
theorem allowance_exact_vs_leftover_witness :
    allow_bad_entropy_calls 2 (consumeN 2) ⟨false, 5⟩ = (⟨false, 5⟩, none) ∧
    (allow_bad_entropy_calls 2 (consumeN 1) ⟨false, 5⟩).2
      = some (PyErr.runtimeError (toString (1 : Int) ++ leftover_suffix)) := by
  have h := allowance_exact_vs_leftover 2 1 ⟨false, 5⟩
    (by norm_num) (by norm_num) (by norm_num) rfl
  constructor
  · have := h.1
    norm_num at this ⊢
    exact this
  · have := h.2
    norm_num at this ⊢
    exact this

/-- Claim C4: a `BlockedCallModule` façade over allow-list `["A"]` while
sandboxed passes the allow-listed callable `A` through (invoking it
behaves exactly as on the real module), returns a non-callable
attribute's real value, and replaces any other callable `B` by a wrapper
whose invocation raises the "outside of request context"
`RuntimeError`; after the phase transition, reading and invoking `B`
through the façade behaves identically to the real module. -/
theorem blocked_call_module_facade (m : ModuleType)
    (f g : List Int → Except PyErr Int) (v : Int) (args : List Int)
    (hA : lookup' m.attrs "A" = some (PyVal.func f))
    (hB : lookup' m.attrs "B" = some (PyVal.func g))
    (hc : lookup' m.attrs "c" = some (PyVal.obj v)) :
    BlockedCallModule.getattribute false ⟨m, ["A"]⟩ "A" = .ok (.passthrough (.func f)) ∧
    callAttr false (.passthrough (.func f)) args = module_call m "A" args ∧
    BlockedCallModule.getattribute false ⟨m, ["A"]⟩ "c" = .ok (.passthrough (.obj v)) ∧
    BlockedCallModule.getattribute false ⟨m, ["A"]⟩ "B" = .ok (.wrapper m.name "B" g) ∧
    callAttr false (.wrapper m.name "B" g) args
      = .error (PyErr.runtimeError
          ("Cannot use " ++ m.name ++ "." ++ "B" ++ "() outside of request context")) ∧
    BlockedCallModule.getattribute true ⟨m, ["A"]⟩ "B" = .ok (.passthrough (.func g)) ∧
    callAttr true (.passthrough (.func g)) args = module_call m "B" args := by
  refine ⟨?_, ?_, ?_, ?_, ?_, ?_, ?_⟩
  · simp [BlockedCallModule.getattribute, hA, funcallable]
  · simp [callAttr, module_call, hA]
  · simp [BlockedCallModule.getattribute, hc, funcallable]
  · simp [BlockedCallModule.getattribute, hB, funcallable]
  · simp [callAttr]
  · simp [BlockedCallModule.getattribute, hB]
  · simp [callAttr, module_call, hB]

/-- A concrete allow-listed callable for the C4 witness. -/
def fA : List Int → Except PyErr Int := fun _ => .ok 1

/-- A concrete blocked callable for the C4 witness. -/
def fB : List Int → Except PyErr Int := fun _ => .ok 2

/-- A concrete module for the C4 witness: callables `A`, `B` and a
non-callable `c`. -/
def sampleModule : ModuleType :=
  ⟨"m", [("A", .func fA), ("B", .func fB), ("c", .obj 7)]⟩

/-- Witness for C4 at the concrete `sampleModule`. -/
theorem blocked_call_module_facade_witness :
    BlockedCallModule.getattribute false ⟨sampleModule, ["A"]⟩ "B"
      = .ok (.wrapper sampleModule.name "B" fB) ∧
    callAttr false (.wrapper sampleModule.name "B" fB) [3]
      = .error (PyErr.runtimeError
          ("Cannot use " ++ sampleModule.name ++ "." ++ "B" ++ "() outside of request context")) ∧
    callAttr true (.passthrough (.func fB)) [3] = module_call sampleModule "B" [3] := by
  have h := blocked_call_module_facade sampleModule fA fB 7 [3] rfl rfl rfl
  exact ⟨h.2.2.2.1, h.2.2.2.2.1, h.2.2.2.2.2.2⟩

lemma lookup'_setItem_self {α : Type} (l : List (String × α)) (k : String) (v : α) :
    lookup' (setItem l k v) k = some v := by
  induction l with
  | nil => simp [setItem, lookup']
  | cons p rest ih =>
    obtain ⟨k', v'⟩ := p
    by_cases hk : k' = k
    · subst hk
      simp [setItem, lookup']
    · simp [setItem, lookup', hk, ih]

lemma lookup'_setItem_ne {α : Type} (l : List (String × α)) (k k' : String) (v : α)
    (h : k ≠ k') : lookup' (setItem l k v) k' = lookup' l k' := by
  induction l with
  | nil => simp [setItem, lookup', h]
  | cons p rest ih =>
    obtain ⟨k0, v0⟩ := p
    by_cases hk : k0 = k
    · subst hk
      simp [setItem, lookup', h]
    · simp only [setItem, hk, if_false]
      by_cases hk' : k0 = k'
      · subst hk'
        simp [lookup']
      · simp [lookup', hk', ih]

lemma lookup'_foldl_setItem_not_mem (l : List (String × ModuleType))
    (sm : List (String × ModuleEntry)) (name : String)
    (h : name ∉ l.map Prod.fst) :
    lookup' (l.foldl (fun acc p => setItem acc p.1 (ModuleEntry.real p.2)) sm) name
      = lookup' sm name := by
  induction l generalizing sm with
  | nil => simp
  | cons p rest ih =>
    obtain ⟨k0, v0⟩ := p
    simp only [List.map_cons, List.mem_cons, not_or] at h
    simp only [List.foldl_cons]
    rw [ih _ h.2, lookup'_setItem_ne _ _ _ _ (fun hk => h.1 hk.symm)]

lemma lookup'_foldl_setItem (l : List (String × ModuleType))
    (sm : List (String × ModuleEntry)) (name : String) (m : ModuleType)
    (hnd : (l.map Prod.fst).Nodup) (hm : lookup' l name = some m) :
    lookup' (l.foldl (fun acc p => setItem acc p.1 (ModuleEntry.real p.2)) sm) name
      = some (ModuleEntry.real m) := by
  induction l generalizing sm with
  | nil => simp [lookup'] at hm
  | cons p rest ih =>
    obtain ⟨k0, v0⟩ := p
    simp only [List.map_cons, List.nodup_cons] at hnd
    simp only [List.foldl_cons]
    by_cases hk : k0 = name
    · subst hk
      simp only [lookup', if_true, eq_self_iff_true, Option.some.injEq] at hm
      subst hm
      rw [lookup'_foldl_setItem_not_mem _ _ _ hnd.1, lookup'_setItem_self]
    · simp only [lookup', hk, if_false] at hm
      exact ih _ hnd.2 hm

/-- Claim C5 counterexample: after one `block_calls` followed by
`unblock_calls`, `ORIG_MODULES` still holds its entry — the teardown
loop writes `sys.modules` but never clears the map, so it is not
"drained to empty". -/
theorem unblock_calls_map_not_drained :
    ((unblock_calls (block_calls ⟨false, [], []⟩ ⟨"m", []⟩ [])).ORIG_MODULES).length ≠ 0 := by
  decide

/-- Claim C5 (amended): at teardown `unblock_calls` sets
`IN_REQUEST_CONTEXT`, replaces the cache entry of every recorded module
with the original module object, and leaves `ORIG_MODULES` exactly as it
was (the map is not cleared; teardown itself never repopulates or
otherwise changes it). -/
theorem unblock_calls_restores_originals (st : IPMState) (name : String) (m : ModuleType)
    (hnd : (st.ORIG_MODULES.map Prod.fst).Nodup)
    (hm : lookup' st.ORIG_MODULES name = some m) :
    (unblock_calls st).IN_REQUEST_CONTEXT = true ∧
    lookup' (unblock_calls st).sys_modules name = some (ModuleEntry.real m) ∧
    (unblock_calls st).ORIG_MODULES = st.ORIG_MODULES := by
  refine ⟨rfl, ?_, rfl⟩
  exact lookup'_foldl_setItem _ _ _ _ hnd hm

/-- Witness for the amended C5 at a one-entry map. -/
theorem unblock_calls_restores_originals_witness :
    (unblock_calls ⟨false, [("m", .blocked ⟨⟨"m", []⟩, []⟩)], [("m", ⟨"m", []⟩)]⟩).IN_REQUEST_CONTEXT
        = true ∧
    lookup' (unblock_calls ⟨false, [("m", .blocked ⟨⟨"m", []⟩, []⟩)],
        [("m", ⟨"m", []⟩)]⟩).sys_modules "m" = some (ModuleEntry.real ⟨"m", []⟩) ∧
    (unblock_calls ⟨false, [("m", .blocked ⟨⟨"m", []⟩, []⟩)],
        [("m", ⟨"m", []⟩)]⟩).ORIG_MODULES = [("m", ⟨"m", []⟩)] := by
  exact unblock_calls_restores_originals _ "m" _ (by simp) rfl

lemma lookup'_updatePatch_self (l : List (String × PatchInfo)) (k : String)
    (f : PatchInfo → PatchInfo) :
    lookup' (updatePatch l k f) k = some (f ((lookup' l k).getD {})) := by
  induction l with
  | nil => simp [updatePatch, lookup']
  | cons p rest ih =>
    obtain ⟨k0, v0⟩ := p
    by_cases hk : k0 = k
    · subst hk
      simp [updatePatch, lookup']
    · simp [updatePatch, lookup', hk, ih]

/-- Claim C7: registering an `exec` policy and a `before_first_request`
handler for module `m` leaves the pending-callbacks list untouched
(registration time appends nothing, so a registered-but-never-imported
module contributes zero entries), while executing the loaded module
through the wrapping loader appends exactly one callback, bound to the
concrete loaded module object, to `before_first_request_handlers`. -/
theorem exec_module_appends_one_bound_handler (st : RegistryState) (m : String)
    (ctx : Nat) (h : Handler) (module : ModuleType) :
    ((register_before_first_request (register_exec_patch st m ctx) m h).before_first_request_handlers
        = st.before_first_request_handlers) ∧
    (∃ pi : PatchInfo,
      lookup' (register_before_first_request (register_exec_patch st m ctx) m h).patches m
          = some pi ∧
      pi.exec = some ctx ∧
      pi.before_first_request = some h ∧
      ∀ handlers : List BoundHandler,
        PatchLoader.exec_module pi module handlers = handlers ++ [⟨h, module⟩]) := by
  refine ⟨rfl, ?_⟩
  refine ⟨{ ((lookup' st.patches m).getD {}) with
            exec := some ctx, before_first_request := some h }, ?_, rfl, rfl, ?_⟩
  · simp only [register_before_first_request, register_exec_patch]
    rw [lookup'_updatePatch_self, lookup'_updatePatch_self]
    simp
  · intro handlers
    simp [PatchLoader.exec_module]

/-- Claim C9 (modelled from the spec, the drain itself not being among
the Python sources): the phase-transition drain invokes every pending
callback in registration order, each exactly once — the invocation trace
equals the pending list — and a callback's failure never prevents the
later callbacks from running; the failures are collected and reported in
aggregate after the drain. -/
theorem drain_runs_all_in_order (handlers : List BoundHandler) :
    (drainTrace handlers).1 = handlers ∧
    (drainTrace handlers).2 = handlers.filterMap (fun b => b.func b.arg) := by
  induction handlers with
  | nil => exact ⟨rfl, rfl⟩
  | cons b rest ih =>
    simp only [drainTrace, List.filterMap_cons]
    cases hb : b.func b.arg with
    | none => simpa [hb] using ih
    | some e => simpa [hb] using ih

lemma findFirstSpec_filter (mp : List Finder) (fullname : String) :
    findFirstSpec mp fullname
      = findFirstSpec (mp.filter (fun f => !isPatchFinder f)) fullname := by
  induction mp with
  | nil => rfl
  | cons fdr rest ih =>
    cases fdr with
    | patchFinder => simpa [findFirstSpec, isPatchFinder] using ih
    | plain id find =>
      simp only [List.filter_cons,
        show (!isPatchFinder (Finder.plain id find)) = true from rfl, if_true]
      simp only [findFirstSpec]
      cases hf : find fullname with
      | none => simpa [hf] using ih
      | some spec => simp [hf]

/-- Claim C10: `PatchFinder.find_spec` declines (returns `None`) for
every module name absent from the `patches` registry; its walk of the
resolver chain skips every other `PatchFinder` instance (the walk's
result equals the walk over the chain with all interceptor instances
removed); and for a registered name that none of the remaining resolvers
can find it also returns `None` — the same module-not-found outcome as
with no interceptor installed. -/
theorem patch_finder_find_spec_decline (patches : List (String × PatchInfo))
    (mp : List Finder) (fullname : String) :
    (lookup' patches fullname = none →
      PatchFinder.find_spec patches mp fullname = none) ∧
    (findFirstSpec mp fullname
      = findFirstSpec (mp.filter (fun f => !isPatchFinder f)) fullname) ∧
    (findFirstSpec (mp.filter (fun f => !isPatchFinder f)) fullname = none →
      PatchFinder.find_spec patches mp fullname = none) := by
  refine ⟨?_, findFirstSpec_filter mp fullname, ?_⟩
  · intro h
    simp [PatchFinder.find_spec, h]
  · intro h
    rw [← findFirstSpec_filter mp fullname] at h
    unfold PatchFinder.find_spec
    rw [h]
    cases lookup' patches fullname <;> rfl

/-- Witness for C10: an unregistered name is declined, and a registered
name that the rest of the chain cannot find yields `None`. -/
theorem patch_finder_find_spec_decline_witness :
    PatchFinder.find_spec [] [Finder.patchFinder, Finder.plain 0 (fun _ => none)] "x"
        = none ∧
    PatchFinder.find_spec [("y", {})] [Finder.patchFinder, Finder.plain 0 (fun _ => none)] "y"
        = none := by
  constructor
  · exact (patch_finder_find_spec_decline [] _ "x").1 rfl
  · exact (patch_finder_find_spec_decline [("y", {})] _ "y").2.2 rfl

lemma reseed_rng_fields (s : EPState) :
    (reseed_rng s).IN_REQUEST_CONTEXT = s.IN_REQUEST_CONTEXT ∧
    (reseed_rng s).handlers = s.handlers ∧
    (reseed_rng s).sys_meta_path = s.sys_meta_path ∧
    (reseed_rng s).random_seeded = s.random_seeded + 1 := by
  unfold reseed_rng
  split <;> simp

lemma before_first_request_ok (s : EPState) (mp : List Finder)
    (h : PatchFinder.remove s.sys_meta_path = .ok mp) :
    before_first_request s
      = (reseed_rng
          { s with
            IN_REQUEST_CONTEXT := true
            os_urandom_patched := false
            random_seed_patched := false
            sys_meta_path := mp
            ipm := unblock_calls s.ipm },
         some (PyErr.typeError tempfile_restore_arity_msg)) := by
  unfold before_first_request remove_import_patch_manager restore_urandom restore_random_seed
  simp [h]

lemma before_first_request_err (s : EPState) (e : PyErr)
    (h : PatchFinder.remove s.sys_meta_path = .error e) :
    before_first_request s
      = ({ s with
           IN_REQUEST_CONTEXT := true
           os_urandom_patched := false
           random_seed_patched := false },
         some e) := by
  unfold before_first_request remove_import_patch_manager restore_urandom restore_random_seed
  simp [h]

/-- A concrete pre-transition state for the C8 counterexample: the
interceptor installed ahead of one ordinary resolver. -/
def epSample : EPState :=
  { IN_REQUEST_CONTEXT := false, os_urandom_patched := true, random_seed_patched := true,
    sys_meta_path := [Finder.patchFinder, Finder.plain 0 (fun _ => none)],
    ipm := ⟨false, [], []⟩, handlers := [], random_seeded := 0, numpy_seeded := 0 }

/-- Claim C8 counterexample: invoking `before_first_request` a second
time is observably not a no-op — with the interceptor already removed,
the second call deletes the one remaining `sys.meta_path` entry (the
`for`/`else` in `PatchFinder.remove` leaves `idx` at the last index when
no `PatchFinder` is found) and runs `reseed_rng` again. -/
theorem before_first_request_second_call_counterexample :
    ((((before_first_request (before_first_request epSample).1).1.sys_meta_path).map finderTag),
      (before_first_request (before_first_request epSample).1).1.random_seeded)
    ≠ ((((before_first_request epSample).1.sys_meta_path).map finderTag),
      (before_first_request epSample).1.random_seeded) := by
  decide

/-- Claim C8 (amended): every invocation of `before_first_request`
leaves `IN_REQUEST_CONTEXT` true — the phase flip is permanent, no code
path resets it — and the pending-callbacks list is never read or run by
it; but a second invocation is not a no-op: once the interceptor is gone
(`sys.meta_path` nonempty with no `PatchFinder` left), it deletes the
final remaining resolver-chain entry, runs `reseed_rng` again, and (like
every invocation in this source) ends in the `TypeError` from the
zero-argument call to the one-parameter tempfile restore handler. -/
theorem before_first_request_second_call (s : EPState) :
    ((before_first_request s).1.IN_REQUEST_CONTEXT = true) ∧
    ((before_first_request s).1.handlers = s.handlers) ∧
    (s.sys_meta_path ≠ [] →
      (∀ f ∈ s.sys_meta_path, isPatchFinder f = false) →
      (before_first_request s).1.sys_meta_path = s.sys_meta_path.dropLast ∧
      (before_first_request s).1.random_seeded = s.random_seeded + 1 ∧
      (before_first_request s).2 = some (PyErr.typeError tempfile_restore_arity_msg)) := by
  refine ⟨?_, ?_, ?_⟩
  · cases h : PatchFinder.remove s.sys_meta_path with
    | error e => rw [before_first_request_err s e h]
    | ok mp =>
      rw [before_first_request_ok s mp h]
      exact (reseed_rng_fields _).1
  · cases h : PatchFinder.remove s.sys_meta_path with
    | error e => rw [before_first_request_err s e h]
    | ok mp =>
      rw [before_first_request_ok s mp h]
      exact (reseed_rng_fields _).2.1
  · intro hne hall
    have hidx : s.sys_meta_path.findIdx? (fun f => isPatchFinder f) = none := by
      rw [List.findIdx?_eq_none_iff]
      exact hall
    have hrem : PatchFinder.remove s.sys_meta_path = .ok s.sys_meta_path.dropLast := by
      unfold PatchFinder.remove
      rw [hidx]
      cases hmp : s.sys_meta_path with
      | nil => exact absurd hmp hne
      | cons a l =>
        rw [← hmp]
        have hlen : (s.sys_meta_path.length - 1) + 1 = s.sys_meta_path.length := by
          rw [hmp]
          simp
        rw [← List.dropLast_eq_eraseIdx hlen]
        rw [hmp]
    rw [before_first_request_ok s _ hrem]
    refine ⟨?_, ?_, rfl⟩
    · rw [(reseed_rng_fields _).2.2.1]
    · rw [(reseed_rng_fields _).2.2.2]

/-- Witness for the amended C8: a post-transition state with one
ordinary resolver left loses that resolver and is reseeded again. -/
theorem before_first_request_second_call_witness :
    (before_first_request ⟨true, false, false, [Finder.plain 0 (fun _ => none)],
        ⟨true, [], []⟩, [], 1, 0⟩).1.sys_meta_path = [] ∧
    (before_first_request ⟨true, false, false, [Finder.plain 0 (fun _ => none)],
        ⟨true, [], []⟩, [], 1, 0⟩).1.random_seeded = 2 ∧
    (before_first_request ⟨true, false, false, [Finder.plain 0 (fun _ => none)],
        ⟨true, [], []⟩, [], 1, 0⟩).2 = some (PyErr.typeError tempfile_restore_arity_msg) := by
  have h := (before_first_request_second_call
      ⟨true, false, false, [Finder.plain 0 (fun _ => none)], ⟨true, [], []⟩, [], 1, 0⟩).2.2
      (by simp) ?hall
  case hall =>
    intro f hf
    rw [List.mem_singleton] at hf
    subst hf
    rfl
  simpa using h

end TopLevelEntropy
